import Mathlib

/-!
Shallow embedding of the Aisha backend core (whatsapp_service.py, main.py).

The outbound HTTP caller (`call_api` from service/api_service.py) is a
collaborator whose source is not part of the modelled core; every operation
that delegates to it takes an explicit `ApiCall` behaviour parameter
(a function from the built request to either a returned JSON value or a
raised exception), exactly the role of the spec's "mock transport".
Python dictionaries / JSON values are modelled by the `Json` inductive,
Python exceptions by `Except String`, and Python truthiness by `pyTruthy`.
-/

/-- Model of a Python JSON-like value (dict / list / scalar), as passed to
and returned from the HTTP caller. -/
inductive Json where
  | null : Json
  | bool : Bool → Json
  | num : Int → Json
  | str : String → Json
  | arr : List Json → Json
  | obj : List (String × Json) → Json

/-- First-match lookup in an object's field list (Python dict access;
the literals in the source have no duplicate keys). -/
def jsonLookup (fs : List (String × Json)) (k : String) : Option Json :=
  (fs.find? (fun kv => kv.fst == k)).map Prod.snd

/-- Python `d.get(k)`: `None` when the key is absent, `AttributeError`
when the receiver is not a dict. -/
def pyDictGet : Json → String → Except String (Option Json)
  | Json.obj fs, k => Except.ok (jsonLookup fs k)
  | _, _ => Except.error "AttributeError: object has no attribute get"

/-- Python `d.get(k, default)`. -/
def pyDictGetD (j : Json) (k : String) (d : Json) : Except String Json :=
  match j with
  | Json.obj fs => Except.ok ((jsonLookup fs k).getD d)
  | _ => Except.error "AttributeError: object has no attribute get"

/-- Python `d[k]` on a dict: `KeyError` when absent, `TypeError` when the
receiver is not a dict. -/
def pySubscr : Json → String → Except String Json
  | Json.obj fs, k =>
    match jsonLookup fs k with
    | some v => Except.ok v
    | none => Except.error ("KeyError: " ++ k)
  | _, _ => Except.error "TypeError: object is not subscriptable"

/-- Python `l[i]` on a list: `IndexError` when out of range, `TypeError`
when the receiver is not a list. -/
def pyIndex : Json → Nat → Except String Json
  | Json.arr xs, i =>
    match xs.get? i with
    | some v => Except.ok v
    | none => Except.error "list index out of range"
  | _, _ => Except.error "TypeError: object is not indexable"

/-- Python truthiness of a JSON value. -/
def pyTruthy : Json → Bool
  | Json.null => false
  | Json.bool b => b
  | Json.num n => n != 0
  | Json.str s => !s.isEmpty
  | Json.arr xs => !xs.isEmpty
  | Json.obj fs => !fs.isEmpty

/-- Python truthiness of a `dict.get` result (`None` is falsy). -/
def pyTruthyOpt : Option Json → Bool
  | none => false
  | some j => pyTruthy j

/-- Python `not X` for an environment variable: true when the variable is
unset (`None`) or the empty string. -/
def pyFalsyEnv : Option String → Bool
  | none => true
  | some s => s.isEmpty

/-- A possibly-unset environment string as a JSON payload value
(`None` serialises to null). -/
def jsonOfEnv : Option String → Json
  | none => Json.null
  | some s => Json.str s

/-! ## Phone normalizer (`WhatsAppService._normalize_phone`) -/

/-- The whitespace characters removed by Python `str.strip()`
(ASCII range; the inputs of interest are ASCII). -/
def pyIsSpace (c : Char) : Bool :=
  c == ' ' || c == '\t' || c == '\n' || c == '\r' || c == '\x0b' || c == '\x0c'

/-- Python `str.strip()` on the character list of a string. -/
def pyStrip (l : List Char) : List Char :=
  ((l.dropWhile pyIsSpace).reverse.dropWhile pyIsSpace).reverse

/-- A character kept by the normalizer's filter: a decimal digit or the
plus sign (Python `c.isdigit() or c == chr(43)`; ASCII range). -/
def digitOrPlus (c : Char) : Bool :=
  c.isDigit || c == '+'

/-- The prefix-handling conditional of `_normalize_phone`, translated from
the source: leading 0 becomes +254, leading 254 gains a +, anything not
already starting with + gains a +. -/
def fixLeading (l : List Char) : List Char :=
  if l.take 1 = ['0'] then '+' :: '2' :: '5' :: '4' :: l.drop 1
  else if l.take 3 = ['2', '5', '4'] then '+' :: l
  else if l.take 1 ≠ ['+'] then '+' :: l
  else l

/-- `WhatsAppService._normalize_phone` on character lists: strip
whitespace, keep digits and +, fix the leading country code. -/
def normList (l : List Char) : List Char :=
  fixLeading ((pyStrip l).filter digitOrPlus)

/-- `WhatsAppService._normalize_phone`. -/
def normalize_phone (s : String) : String :=
  ⟨normList s.data⟩

/-- Step 1 of the spec's normalization algorithm: strip leading/trailing
whitespace. -/
def specStrip (s : String) : String :=
  ⟨pyStrip s.data⟩

/-- Step 2 of the spec's algorithm: remove every character that is not a
decimal digit or +. -/
def specKeep (s : String) : String :=
  ⟨s.data.filter digitOrPlus⟩

/-- Step 3 of the spec's algorithm: the leading-character conditional,
in the spec's stated order. -/
def specLead (s : String) : String :=
  ⟨fixLeading s.data⟩

/-! ## Messaging gateway client (`WhatsAppService`) -/

/-- Read-only configuration of the gateway client, loaded from the
environment at process start. -/
structure NgumzoConfig where
  apiKey : Option String
  apiUrl : String
  senderId : Option String

/-- One outbound HTTP request as handed to `call_api`. -/
structure CallRecord where
  url : String
  method : String
  headers : List (String × String)
  payload : Json
  timeout : Option Nat

/-- Behaviour of the delegated HTTP caller: for a request, either a
returned JSON value or a raised exception (message string). -/
def ApiCall : Type :=
  CallRecord → Except String Json

/-- The failure envelope built by the `except` clauses of the gateway
client. -/
def excEnvelope (e : String) : Json :=
  Json.obj [("success", Json.bool false), ("error", Json.str ("Exception: " ++ e))]

/-- The short-circuit envelope returned by `send_message` when the API key
is not configured. -/
def missingKeyEnvelope : Json :=
  Json.obj [("success", Json.bool false),
            ("error", Json.str "NGUMZO_API_KEY not found in environment variables")]

/-- The payload dict built by `WhatsAppService.send_message`. -/
def send_message_payload (cfg : NgumzoConfig) (phone message : String) : Json :=
  Json.obj [("api_key", jsonOfEnv cfg.apiKey),
            ("sender_id", jsonOfEnv cfg.senderId),
            ("to", Json.str (normalize_phone phone)),
            ("message", Json.str message),
            ("message_type", Json.str "text")]

/-- The `call_api` request built by `send_message`. -/
def send_message_request (cfg : NgumzoConfig) (phone message : String) : CallRecord :=
  { url := cfg.apiUrl ++ "/send-message"
    method := "POST"
    headers := [("Content-Type", "application/json")]
    payload := send_message_payload cfg phone message
    timeout := some 30 }

/-- `WhatsAppService.send_message`. Returns the envelope together with the
list of `call_api` invocations made (the transport trace). The
`message_type` parameter is accepted with default "text", as in the
source. -/
def send_message (cfg : NgumzoConfig) (call : ApiCall)
    (phone message : String) (message_type : String := "text") : Json × List CallRecord :=
  if pyFalsyEnv cfg.apiKey then
    (missingKeyEnvelope, [])
  else
    let req := send_message_request cfg phone message
    match call req with
    | Except.ok v => (v, [req])
    | Except.error e => (excEnvelope e, [req])

/-- Python `parameters or []`: empty list when `None` or empty. -/
def pyOrEmptyList (p : Option (List Json)) : List Json :=
  match p with
  | none => []
  | some l => if l.isEmpty then [] else l

/-- The payload dict built by `WhatsAppService.send_template_message`. -/
def send_template_payload (cfg : NgumzoConfig) (phone templateName : String)
    (parameters : Option (List Json)) : Json :=
  Json.obj [("api_key", jsonOfEnv cfg.apiKey),
            ("sender_id", jsonOfEnv cfg.senderId),
            ("to", Json.str (normalize_phone phone)),
            ("message_type", Json.str "template"),
            ("template_name", Json.str templateName),
            ("parameters", Json.arr (pyOrEmptyList parameters))]

/-- The `call_api` request built by `send_template_message`. -/
def send_template_request (cfg : NgumzoConfig) (phone templateName : String)
    (parameters : Option (List Json)) : CallRecord :=
  { url := cfg.apiUrl ++ "/send-message"
    method := "POST"
    headers := [("Content-Type", "application/json")]
    payload := send_template_payload cfg phone templateName parameters
    timeout := some 30 }

/-- `WhatsAppService.send_template_message`. Note: unlike `send_message`,
the source performs no API-key check here. -/
def send_template_message (cfg : NgumzoConfig) (call : ApiCall)
    (phone templateName : String) (parameters : Option (List Json)) :
    Json × List CallRecord :=
  let req := send_template_request cfg phone templateName parameters
  match call req with
  | Except.ok v => (v, [req])
  | Except.error e => (excEnvelope e, [req])

/-- The payload dict built by `WhatsAppService.send_media_message`. -/
def send_media_payload (cfg : NgumzoConfig) (phone mediaUrl mediaType : String)
    (caption : Option String) : Json :=
  Json.obj [("api_key", jsonOfEnv cfg.apiKey),
            ("sender_id", jsonOfEnv cfg.senderId),
            ("to", Json.str (normalize_phone phone)),
            ("message_type", Json.str mediaType),
            ("media_url", Json.str mediaUrl),
            ("caption", jsonOfEnv caption)]

/-- The `call_api` request built by `send_media_message`. -/
def send_media_request (cfg : NgumzoConfig) (phone mediaUrl mediaType : String)
    (caption : Option String) : CallRecord :=
  { url := cfg.apiUrl ++ "/send-message"
    method := "POST"
    headers := [("Content-Type", "application/json")]
    payload := send_media_payload cfg phone mediaUrl mediaType caption
    timeout := some 30 }

/-- `WhatsAppService.send_media_message`. No API-key check in the source. -/
def send_media_message (cfg : NgumzoConfig) (call : ApiCall)
    (phone mediaUrl mediaType : String) (caption : Option String) :
    Json × List CallRecord :=
  let req := send_media_request cfg phone mediaUrl mediaType caption
  match call req with
  | Except.ok v => (v, [req])
  | Except.error e => (excEnvelope e, [req])

/-! ## Request handlers (`main.py`) -/

/-- A FastAPI `HTTPException` with a string detail, as raised by the
message-send and waiting-list handlers. -/
structure HTTPExc where
  statusCode : Nat
  detail : String

/-- Starlette `str(HTTPException(code, detail))`: "code: detail". -/
def pyStrHTTPExc (code : Nat) (detail : String) : String :=
  toString code ++ ": " ++ detail

/-- A row of the `whatsapp_messages` table as constructed by the
message-send handlers (`external_message_id` is `.get("id")`, possibly
`None`). -/
structure MessageRecord where
  phone_number : String
  message_content : String
  message_type : String
  status : String
  external_message_id : Option Json

/-- The external-id extraction performed by the message-send handlers:
`result.get("data", \x7b\x7d).get("messages", [\x7b\x7d])[0].get("id")`.
Any step may raise. -/
def extractExternalId (result : Json) : Except String (Option Json) := do
  let d ← pyDictGetD result "data" (Json.obj [])
  let ms ← pyDictGetD d "messages" (Json.arr [Json.obj []])
  let first ← pyIndex ms 0
  pyDictGet first "id"

/-- Shared body of the three message-send handlers, after the service
call returned `result`: persist a record built by `mkRec` when
`result.get("success")` is truthy, return the result unchanged. A raised
exception becomes `HTTPException(500, str(e))` via the handler's
`except` clause. -/
def persistOnSuccess (result : Json) (db : List MessageRecord)
    (mkRec : Option Json → MessageRecord) :
    Except HTTPExc (Json × List MessageRecord) :=
  match pyDictGet result "success" with
  | Except.error e => Except.error ⟨500, e⟩
  | Except.ok s =>
    if pyTruthyOpt s then
      match extractExternalId result with
      | Except.error e => Except.error ⟨500, e⟩
      | Except.ok mid => Except.ok (result, db ++ [mkRec mid])
    else
      Except.ok (result, db)

/-- Handler `POST /whatsapp/send-text` (`send_whatsapp_text`). -/
def send_whatsapp_text (cfg : NgumzoConfig) (call : ApiCall)
    (phone message : String) (db : List MessageRecord) :
    Except HTTPExc (Json × List MessageRecord) :=
  let result := (send_message cfg call phone message "text").fst
  persistOnSuccess result db
    (fun mid => ⟨phone, message, "text", "sent", mid⟩)

/-- Handler `POST /whatsapp/send-template` (`send_whatsapp_template`). -/
def send_whatsapp_template (cfg : NgumzoConfig) (call : ApiCall)
    (phone templateName : String) (parameters : Option (List Json))
    (db : List MessageRecord) :
    Except HTTPExc (Json × List MessageRecord) :=
  let result := (send_template_message cfg call phone templateName parameters).fst
  persistOnSuccess result db
    (fun mid => ⟨phone, "Template: " ++ templateName, "template", "sent", mid⟩)

/-- Handler `POST /whatsapp/send-media` (`send_whatsapp_media`). -/
def send_whatsapp_media (cfg : NgumzoConfig) (call : ApiCall)
    (phone mediaUrl mediaType : String) (caption : Option String)
    (db : List MessageRecord) :
    Except HTTPExc (Json × List MessageRecord) :=
  let result := (send_media_message cfg call phone mediaUrl mediaType caption).fst
  persistOnSuccess result db
    (fun mid => ⟨phone, mediaUrl, mediaType, "sent", mid⟩)

/-- A row of the `waiting_list` table. -/
structure WaitingRecord where
  username : String
  phone_number : String

/-- The welcome message interpolated by the waiting-list handler. -/
def welcomeMessage (username : String) : String :=
  "Hello " ++ username ++ ", 👋\n\nThanks for joining our waiting list! We\x27ll notify you soon when we launch. 🚀"

/-- Handler `POST /waiting-list/` (`create_waiting_list_item`). Returns
the response (or the raised `HTTPException`), the waiting-list table
after the handler, and the trace of `call_api` invocations. The
`HTTPException(400)` raised on a duplicate is caught by the handler's
blanket `except Exception` clause and re-raised as
`HTTPException(422, str(e))`. -/
def create_waiting_list_item (cfg : NgumzoConfig) (call : ApiCall)
    (item : WaitingRecord) (db : List WaitingRecord) :
    Except HTTPExc Json × List WaitingRecord × List CallRecord :=
  if (db.find? (fun r => r.phone_number == item.phone_number)).isSome then
    (Except.error ⟨422, pyStrHTTPExc 400 "Phone number already in waiting list"⟩, db, [])
  else
    let db2 := db ++ [item]
    let (wres, trace) := send_message cfg call item.phone_number (welcomeMessage item.username) "text"
    match pyDictGetD wres "success" (Json.bool false) with
    | Except.error e => (Except.error ⟨422, e⟩, db2, trace)
    | Except.ok s =>
      (Except.ok (Json.obj [("message", Json.str "Added to waiting list"),
                            ("id", Json.num (Int.ofNat db.length + 1)),
                            ("whatsapp_sent", Json.bool (pyTruthy s))]),
       db2, trace)

/-! ## Gemini handler (`main.py`, `get_gemini_response`) -/

/-- The fixed Gemini endpoint URL from `main.py`. -/
def GEMINI_API_URL : String :=
  "https://generativelanguage.googleapis.com/v1beta/models/gemini-2.5-flash:generateContent"

/-- A failure escaping the Gemini handler: either a raised
`HTTPException` (whose detail may be any JSON value) or an uncaught
Python exception. -/
inductive GeminiFailure where
  | http (status : Nat) (detail : Json)
  | exc (msg : String)

/-- The Gemini request payload:
`\x7bcontents: [\x7bparts: [\x7btext: prompt\x7d]\x7d]\x7d`. -/
def geminiPayload (prompt : String) : Json :=
  Json.obj [("contents",
    Json.arr [Json.obj [("parts",
      Json.arr [Json.obj [("text", Json.str prompt)]])]])]

/-- The `call_api` request built by the Gemini handler (no timeout
argument is passed; the key is interpolated into the URL, Python
rendering `None` as "None"). -/
def geminiRequest (apiKey : Option String) (prompt : String) : CallRecord :=
  { url := GEMINI_API_URL ++ "?key=" ++ (match apiKey with | none => "None" | some k => k)
    method := "POST"
    headers := [("Content-Type", "application/json")]
    payload := geminiPayload prompt
    timeout := none }

/-- The extraction chain
`data["candidates"][0]["content"]["parts"][0]["text"]` — plain
subscripts, no defaults, any step may raise. -/
def geminiExtract (data : Json) : Except String Json := do
  let c ← pySubscr data "candidates"
  let c0 ← pyIndex c 0
  let ct ← pySubscr c0 "content"
  let ps ← pySubscr ct "parts"
  let p0 ← pyIndex ps 0
  pySubscr p0 "text"

/-- Handler `POST /gemini` (`get_gemini_response`). There is no
`try/except` in this handler: any exception (from subscripting or the
extraction chain) propagates uncaught. -/
def get_gemini_response (apiKey : Option String) (call : ApiCall)
    (prompt : String) : Except GeminiFailure Json :=
  match call (geminiRequest apiKey prompt) with
  | Except.error e => Except.error (GeminiFailure.exc e)
  | Except.ok result =>
    match pySubscr result "success" with
    | Except.error e => Except.error (GeminiFailure.exc e)
    | Except.ok s =>
      if !pyTruthy s then
        match pyDictGetD result "error" (Json.str "Unknown error") with
        | Except.error e => Except.error (GeminiFailure.exc e)
        | Except.ok errv => Except.error (GeminiFailure.http 500 errv)
      else
        match pySubscr result "data" with
        | Except.error e => Except.error (GeminiFailure.exc e)
        | Except.ok data =>
          match geminiExtract data with
          | Except.error e => Except.error (GeminiFailure.exc e)
          | Except.ok t => Except.ok (Json.obj [("response", t)])

/-! ## Derived notions and concrete fixtures used by the theorems -/

/-- Python truthiness of `result.get("success")` as the message-send
handlers test it (`false` also when the receiver is not a dict, in which
case the handler raises before the test matters). -/
def successTruthy (res : Json) : Bool :=
  match pyDictGet res "success" with
  | Except.ok s => pyTruthyOpt s
  | Except.error _ => false

/-- A configuration with no API key set. -/
def cfgNoKey : NgumzoConfig := ⟨none, "https://ngumzo.com/v1", none⟩

/-- A configuration with the API key and sender id set. -/
def cfgKey : NgumzoConfig := ⟨some "test-key", "https://ngumzo.com/v1", some "sender-1"⟩

/-- A transport that answers every request with a plain success
envelope. -/
def okTransport : ApiCall := fun _ => Except.ok (Json.obj [("success", Json.bool true)])

/-- A provider response whose `data.messages` is the empty list. -/
def emptyMessagesEnvelope : Json :=
  Json.obj [("success", Json.bool true), ("data", Json.obj [("messages", Json.arr [])])]

/-- A transport returning `emptyMessagesEnvelope`. -/
def emptyMessagesTransport : ApiCall := fun _ => Except.ok emptyMessagesEnvelope

/-- A success envelope with no `data` field at all. -/
def simpleSuccessEnvelope : Json := Json.obj [("success", Json.bool true)]

/-- A transport returning `simpleSuccessEnvelope`. -/
def simpleSuccessTransport : ApiCall := fun _ => Except.ok simpleSuccessEnvelope

/-- A Gemini success envelope whose data lacks the `candidates` path. -/
def noCandidatesEnvelope : Json :=
  Json.obj [("success", Json.bool true), ("data", Json.obj [])]

/-- A transport returning `noCandidatesEnvelope`. -/
def noCandidatesTransport : ApiCall := fun _ => Except.ok noCandidatesEnvelope

/-- A one-row waiting list. -/
def dupDb : List WaitingRecord := [⟨"alice", "0712345678"⟩]

/-- A request whose phone number collides with `dupDb`. -/
def dupItem : WaitingRecord := ⟨"bob", "0712345678"⟩

/-! ## Helper lemmas -/

theorem dropWhileAll {p : Char → Bool} :
    ∀ l : List Char, (∀ c ∈ l, p c = false) → l.dropWhile p = l
  | [], _ => rfl
  | a :: as, h => by
    have ha := h a (List.mem_cons_self a as)
    simp [List.dropWhile_cons, ha]

theorem strip_all {l : List Char} (h : ∀ c ∈ l, pyIsSpace c = false) : pyStrip l = l := by
  unfold pyStrip
  rw [dropWhileAll l h, dropWhileAll l.reverse (fun c hc => h c (List.mem_reverse.mp hc)),
    List.reverse_reverse]

theorem digitOrPlus_not_space {c : Char} (h : digitOrPlus c = true) : pyIsSpace c = false := by
  rcases Bool.or_eq_true_iff.mp h with hd | hp
  · simp only [pyIsSpace, Bool.or_eq_false_iff]
    refine ⟨⟨⟨⟨⟨?_, ?_⟩, ?_⟩, ?_⟩, ?_⟩, ?_⟩ <;>
      · rw [beq_eq_false_iff_ne]
        intro hc
        subst hc
        exact absurd hd (by decide)
  · have : c = '+' := eq_of_beq hp
    subst this
    decide

theorem mem_normList {l : List Char} {c : Char} (hc : c ∈ normList l) :
    digitOrPlus c = true := by
  unfold normList fixLeading at hc
  have hmem : ∀ x ∈ (pyStrip l).filter digitOrPlus, digitOrPlus x = true :=
    fun x hx => List.of_mem_filter hx
  split at hc
  · simp only [List.mem_cons] at hc
    rcases hc with rfl | rfl | rfl | rfl | hc
    · decide
    · decide
    · decide
    · decide
    · exact hmem c (List.mem_of_mem_drop hc)
  · split at hc
    · simp only [List.mem_cons] at hc
      rcases hc with rfl | hc
      · decide
      · exact hmem c hc
    · split at hc
      · simp only [List.mem_cons] at hc
        rcases hc with rfl | hc
        · decide
        · exact hmem c hc
      · exact hmem c hc

theorem normList_head (l : List Char) : ∃ t, normList l = '+' :: t := by
  unfold normList fixLeading
  split
  · exact ⟨_, rfl⟩
  split
  · exact ⟨_, rfl⟩
  split
  · exact ⟨_, rfl⟩
  rename_i h3
  rw [not_not] at h3
  obtain ⟨a, t, hm⟩ : ∃ a t, (pyStrip l).filter digitOrPlus = a :: t := by
    cases hf : (pyStrip l).filter digitOrPlus with
    | nil => rw [hf] at h3; simp at h3
    | cons a t => exact ⟨a, t, rfl⟩
  rw [hm] at h3 ⊢
  simp only [List.take_succ_cons, List.take_zero, List.cons.injEq, and_true] at h3
  exact ⟨t, by rw [h3]⟩

theorem fixLeading_plus (t : List Char) : fixLeading ('+' :: t) = '+' :: t := by
  unfold fixLeading
  simp

theorem normList_idem (l : List Char) : normList (normList l) = normList l := by
  have hall : ∀ c ∈ normList l, digitOrPlus c = true := fun c hc => mem_normList hc
  have hstrip : pyStrip (normList l) = normList l :=
    strip_all (fun c hc => digitOrPlus_not_space (hall c hc))
  have hfilter : (normList l).filter digitOrPlus = normList l :=
    List.filter_eq_self.mpr hall
  obtain ⟨t, ht⟩ := normList_head l
  conv_lhs => rw [normList, hstrip, hfilter, ht, fixLeading_plus]
  rw [ht]

theorem persistOnSuccess_spec (result : Json) (db : List MessageRecord)
    (mk : Option Json → MessageRecord) (res : Json) (db2 : List MessageRecord)
    (h : persistOnSuccess result db mk = Except.ok (res, db2)) :
    res = result ∧
    (successTruthy result = false → db2 = db) ∧
    (successTruthy result = true →
      ∃ mid, extractExternalId result = Except.ok mid ∧ db2 = db ++ [mk mid]) := by
  unfold persistOnSuccess at h
  cases hg : pyDictGet result "success" with
  | error e => rw [hg] at h; cases h
  | ok s =>
    rw [hg] at h
    have hst : successTruthy result = pyTruthyOpt s := by
      unfold successTruthy
      rw [hg]
    rw [hst]
    have h2 : (if pyTruthyOpt s = true then
        match extractExternalId result with
        | Except.error e => (Except.error ⟨500, e⟩ : Except HTTPExc (Json × List MessageRecord))
        | Except.ok mid => Except.ok (result, db ++ [mk mid])
      else Except.ok (result, db)) = Except.ok (res, db2) := h
    cases ht : pyTruthyOpt s with
    | false =>
      rw [ht, if_neg (by decide)] at h2
      simp only [Except.ok.injEq, Prod.mk.injEq] at h2
      obtain ⟨hr, hdb⟩ := h2
      exact ⟨hr.symm, fun _ => hdb.symm, fun hco => Bool.noConfusion hco⟩
    | true =>
      rw [ht, if_pos rfl] at h2
      cases he : extractExternalId result with
      | error e => rw [he] at h2; cases h2
      | ok mid =>
        rw [he] at h2
        simp only [Except.ok.injEq, Prod.mk.injEq] at h2
        obtain ⟨hr, hdb⟩ := h2
        exact ⟨hr.symm, fun hco => Bool.noConfusion hco, fun _ => ⟨mid, rfl, hdb.symm⟩⟩

/-! ## Claim theorems -/

/-- C2: the phone normalizer computes its result by exactly the spec's
three steps in order — strip whitespace, remove every character that is
not a decimal digit or the plus sign, then fix the leading country code
(leading 0 becomes +254, else leading 254 gains a +, else a missing
leading + is prepended, else unchanged) — and in particular
normalize("  0712-345-678 ") = "+254712345678". -/
theorem c2_normalize_steps :
    (∀ s : String, normalize_phone s = specLead (specKeep (specStrip s))) ∧
    normalize_phone "  0712-345-678 " = "+254712345678" :=
  ⟨fun _ => rfl, rfl⟩

/-- C7: the phone normalizer is idempotent — for every input string,
normalizing twice gives the same result as normalizing once. -/
theorem c7_normalize_idempotent (x : String) :
    normalize_phone (normalize_phone x) = normalize_phone x := by
  show (⟨normList (String.data ⟨normList x.data⟩)⟩ : String) = (⟨normList x.data⟩ : String)
  rw [show (String.data ⟨normList x.data⟩) = normList x.data from rfl, normList_idem]

/-- C1 counterexample: with no API key configured, `send_template_message`
does NOT short-circuit — it makes one network call (trace length 1) and
returns the transport's success envelope rather than a failure envelope
mentioning the missing key, refuting the claim for the template (and,
identically structured, media) operation. -/
theorem c1_counterexample :
    (send_template_message cfgNoKey okTransport "0712345678" "welcome" none).snd.length = 1 ∧
    (send_template_message cfgNoKey okTransport "0712345678" "welcome" none).fst
      = Json.obj [("success", Json.bool true)] :=
  ⟨rfl, rfl⟩

/-- C1 amended: only `send_message` enforces the missing-credential
policy — when the API key is absent it returns the failure envelope
naming NGUMZO_API_KEY and makes no network call — while
`send_template_message` and `send_media_message` always delegate to the
transport exactly once, regardless of the key. -/
theorem c1_amended :
    (∀ (cfg : NgumzoConfig) (call : ApiCall) (phone message mt : String),
      pyFalsyEnv cfg.apiKey = true →
      send_message cfg call phone message mt = (missingKeyEnvelope, [])) ∧
    (∀ (cfg : NgumzoConfig) (call : ApiCall) (phone tpl : String) (ps : Option (List Json)),
      (send_template_message cfg call phone tpl ps).snd
        = [send_template_request cfg phone tpl ps]) ∧
    (∀ (cfg : NgumzoConfig) (call : ApiCall) (phone murl mty : String) (cap : Option String),
      (send_media_message cfg call phone murl mty cap).snd
        = [send_media_request cfg phone murl mty cap]) := by
  refine ⟨?_, ?_, ?_⟩
  · intro cfg call phone message mt h
    simp [send_message, h]
  · intro cfg call phone tpl ps
    cases hc : call (send_template_request cfg phone tpl ps) <;>
      simp [send_template_message, hc]
  · intro cfg call phone murl mty cap
    cases hc : call (send_media_request cfg phone murl mty cap) <;>
      simp [send_media_message, hc]

/-- Witness for C1 amended: with the key unset, `send_message` returns
the missing-key envelope and an empty transport trace. -/
theorem c1_amended_witness :
    pyFalsyEnv cfgNoKey.apiKey = true ∧
    send_message cfgNoKey okTransport "0712345678" "hi" "text" = (missingKeyEnvelope, []) :=
  ⟨rfl, c1_amended.1 cfgNoKey okTransport "0712345678" "hi" "text" rfl⟩

/-- C3: none of the three gateway operations raises — for every input and
every transport behaviour, each operation returns an envelope: either the
short-circuit missing-key envelope (send_message only), the value the
transport returned, or, when the transport raised, the failure envelope
"Exception: ..." built by the except clause. Totality of the Lean
functions models the absence of uncaught exceptions. -/
theorem c3_never_raises :
    (∀ (cfg : NgumzoConfig) (call : ApiCall) (phone message mt : String),
      (pyFalsyEnv cfg.apiKey = true ∧
        send_message cfg call phone message mt = (missingKeyEnvelope, [])) ∨
      (∃ v, call (send_message_request cfg phone message) = Except.ok v ∧
        send_message cfg call phone message mt = (v, [send_message_request cfg phone message])) ∨
      (∃ e, call (send_message_request cfg phone message) = Except.error e ∧
        send_message cfg call phone message mt
          = (excEnvelope e, [send_message_request cfg phone message]))) ∧
    (∀ (cfg : NgumzoConfig) (call : ApiCall) (phone tpl : String) (ps : Option (List Json)),
      (∃ v, call (send_template_request cfg phone tpl ps) = Except.ok v ∧
        send_template_message cfg call phone tpl ps
          = (v, [send_template_request cfg phone tpl ps])) ∨
      (∃ e, call (send_template_request cfg phone tpl ps) = Except.error e ∧
        send_template_message cfg call phone tpl ps
          = (excEnvelope e, [send_template_request cfg phone tpl ps]))) ∧
    (∀ (cfg : NgumzoConfig) (call : ApiCall) (phone murl mty : String) (cap : Option String),
      (∃ v, call (send_media_request cfg phone murl mty cap) = Except.ok v ∧
        send_media_message cfg call phone murl mty cap
          = (v, [send_media_request cfg phone murl mty cap])) ∨
      (∃ e, call (send_media_request cfg phone murl mty cap) = Except.error e ∧
        send_media_message cfg call phone murl mty cap
          = (excEnvelope e, [send_media_request cfg phone murl mty cap]))) := by
  refine ⟨?_, ?_, ?_⟩
  · intro cfg call phone message mt
    by_cases hk : pyFalsyEnv cfg.apiKey = true
    · exact Or.inl ⟨hk, by simp [send_message, hk]⟩
    · have hk2 : pyFalsyEnv cfg.apiKey = false := by
        cases h : pyFalsyEnv cfg.apiKey
        · rfl
        · exact absurd h hk
      right
      cases hc : call (send_message_request cfg phone message) with
      | ok v => exact Or.inl ⟨v, rfl, by simp [send_message, hk2, hc]⟩
      | error e => exact Or.inr ⟨e, rfl, by simp [send_message, hk2, hc]⟩
  · intro cfg call phone tpl ps
    cases hc : call (send_template_request cfg phone tpl ps) with
    | ok v => exact Or.inl ⟨v, rfl, by simp [send_template_message, hc]⟩
    | error e => exact Or.inr ⟨e, rfl, by simp [send_template_message, hc]⟩
  · intro cfg call phone murl mty cap
    cases hc : call (send_media_request cfg phone murl mty cap) with
    | ok v => exact Or.inl ⟨v, rfl, by simp [send_media_message, hc]⟩
    | error e => exact Or.inr ⟨e, rfl, by simp [send_media_message, hc]⟩

/-- C4: the Gemini handler builds exactly the payload
contents/parts/text for every prompt, and on a success envelope extracts
candidates[0].content.parts[0].text with no defensive fallback — when any
step of that path is absent the handler propagates the raised exception,
and when the path is present it returns the response object. -/
theorem c4_gemini_payload_and_extraction :
    (∀ (apiKey : Option String) (prompt : String),
      (geminiRequest apiKey prompt).payload
        = Json.obj [("contents",
            Json.arr [Json.obj [("parts",
              Json.arr [Json.obj [("text", Json.str prompt)]])]])]) ∧
    (∀ (apiKey : Option String) (call : ApiCall) (prompt : String) (result s data : Json),
      call (geminiRequest apiKey prompt) = Except.ok result →
      pySubscr result "success" = Except.ok s →
      pyTruthy s = true →
      pySubscr result "data" = Except.ok data →
      ((∀ e, geminiExtract data = Except.error e →
        get_gemini_response apiKey call prompt = Except.error (GeminiFailure.exc e)) ∧
       (∀ t, geminiExtract data = Except.ok t →
        get_gemini_response apiKey call prompt = Except.ok (Json.obj [("response", t)])))) := by
  constructor
  · intro apiKey prompt
    rfl
  · intro apiKey call prompt result s data hc hs ht hd
    constructor
    · intro e he
      simp [get_gemini_response, hc, hs, ht, hd, he]
    · intro t hext
      simp [get_gemini_response, hc, hs, ht, hd, hext]

/-- Witness for C4: a success envelope whose data lacks `candidates`
makes the handler propagate the KeyError. -/
theorem c4_gemini_payload_and_extraction_witness :
    get_gemini_response none noCandidatesTransport "hello"
      = Except.error (GeminiFailure.exc "KeyError: candidates") :=
  (c4_gemini_payload_and_extraction.2 none noCandidatesTransport "hello"
    noCandidatesEnvelope (Json.bool true) (Json.obj []) rfl rfl rfl rfl).1
    "KeyError: candidates" rfl

/-- C5 counterexample: an envelope with success=true whose
`data.messages` is the empty list — the external-id extraction raises
IndexError, the handler raises HTTPException(500), and no message record
is persisted, refuting "persisted if success=true". -/
theorem c5_counterexample :
    pySubscr emptyMessagesEnvelope "success" = Except.ok (Json.bool true) ∧
    send_whatsapp_text cfgKey emptyMessagesTransport "0712345678" "hi" []
      = Except.error ⟨500, "list index out of range"⟩ :=
  ⟨rfl, rfl⟩

/-- C5 amended: for each of the three message-send handlers, whenever the
handler returns normally, no record is added when the envelope's success
is falsy, and exactly the handler's record is appended when it is truthy
(which requires the external-id extraction to succeed); when the
extraction raises, the handler errors and no record is added. -/
theorem c5_amended_persist_on_success :
    (∀ (cfg : NgumzoConfig) (call : ApiCall) (phone message : String)
        (db : List MessageRecord) (res : Json) (db2 : List MessageRecord),
      send_whatsapp_text cfg call phone message db = Except.ok (res, db2) →
      (successTruthy res = false → db2 = db) ∧
      (successTruthy res = true → ∃ mid, extractExternalId res = Except.ok mid ∧
        db2 = db ++ [⟨phone, message, "text", "sent", mid⟩])) ∧
    (∀ (cfg : NgumzoConfig) (call : ApiCall) (phone tpl : String)
        (ps : Option (List Json)) (db : List MessageRecord) (res : Json)
        (db2 : List MessageRecord),
      send_whatsapp_template cfg call phone tpl ps db = Except.ok (res, db2) →
      (successTruthy res = false → db2 = db) ∧
      (successTruthy res = true → ∃ mid, extractExternalId res = Except.ok mid ∧
        db2 = db ++ [⟨phone, "Template: " ++ tpl, "template", "sent", mid⟩])) ∧
    (∀ (cfg : NgumzoConfig) (call : ApiCall) (phone murl mty : String)
        (cap : Option String) (db : List MessageRecord) (res : Json)
        (db2 : List MessageRecord),
      send_whatsapp_media cfg call phone murl mty cap db = Except.ok (res, db2) →
      (successTruthy res = false → db2 = db) ∧
      (successTruthy res = true → ∃ mid, extractExternalId res = Except.ok mid ∧
        db2 = db ++ [⟨phone, murl, mty, "sent", mid⟩])) := by
  refine ⟨?_, ?_, ?_⟩
  · intro cfg call phone message db res db2 h
    obtain ⟨hres, h1, h2⟩ := persistOnSuccess_spec _ db _ res db2 h
    subst hres
    exact ⟨h1, h2⟩
  · intro cfg call phone tpl ps db res db2 h
    obtain ⟨hres, h1, h2⟩ := persistOnSuccess_spec _ db _ res db2 h
    subst hres
    exact ⟨h1, h2⟩
  · intro cfg call phone murl mty cap db res db2 h
    obtain ⟨hres, h1, h2⟩ := persistOnSuccess_spec _ db _ res db2 h
    subst hres
    exact ⟨h1, h2⟩

/-- Witness for C5 amended: a plain success envelope (no data field) — the
text handler appends exactly one record whose external id is None. -/
theorem c5_amended_persist_on_success_witness :
    ∃ mid, extractExternalId simpleSuccessEnvelope = Except.ok mid ∧
      ([⟨"0712345678", "hi", "text", "sent", none⟩] : List MessageRecord)
        = [] ++ [⟨"0712345678", "hi", "text", "sent", mid⟩] :=
  (c5_amended_persist_on_success.1 cfgKey simpleSuccessTransport "0712345678" "hi" []
    simpleSuccessEnvelope [⟨"0712345678", "hi", "text", "sent", none⟩] rfl).2 rfl

/-- C6: waiting-list creation with a phone number already present returns
a client error (a raised HTTPException with 4xx status 422), performs no
messaging call (empty transport trace), and leaves the waiting list
unchanged (no second insert). -/
theorem c6_duplicate_rejected
    (cfg : NgumzoConfig) (call : ApiCall) (item : WaitingRecord) (db : List WaitingRecord)
    (h : (db.find? (fun r => r.phone_number == item.phone_number)).isSome = true) :
    create_waiting_list_item cfg call item db
      = (Except.error ⟨422, pyStrHTTPExc 400 "Phone number already in waiting list"⟩, db, []) := by
  simp [create_waiting_list_item, h]

/-- Witness for C6: the concrete duplicate request against the one-row
waiting list. -/
theorem c6_duplicate_rejected_witness :
    (dupDb.find? (fun r => r.phone_number == dupItem.phone_number)).isSome = true ∧
    create_waiting_list_item cfgKey okTransport dupItem dupDb
      = (Except.error ⟨422, pyStrHTTPExc 400 "Phone number already in waiting list"⟩, dupDb, []) :=
  ⟨rfl, c6_duplicate_rejected cfgKey okTransport dupItem dupDb rfl⟩

/-- C9: the duplicate rejection surfaces with status 422, not 400 — the
HTTPException(400) raised in the try block is caught by the blanket
except clause and re-raised as HTTPException(422) whose detail is the
string form "400: Phone number already in waiting list" of the original
exception. -/
theorem c9_duplicate_status_422
    (cfg : NgumzoConfig) (call : ApiCall) (item : WaitingRecord) (db : List WaitingRecord)
    (h : (db.find? (fun r => r.phone_number == item.phone_number)).isSome = true) :
    ∃ exc : HTTPExc,
      (create_waiting_list_item cfg call item db).fst = Except.error exc ∧
      exc.statusCode = 422 ∧ exc.statusCode ≠ 400 ∧
      exc.detail = pyStrHTTPExc 400 "Phone number already in waiting list" := by
  refine ⟨⟨422, pyStrHTTPExc 400 "Phone number already in waiting list"⟩, ?_, rfl, by decide, rfl⟩
  simp [create_waiting_list_item, h]

/-- Witness for C9: the concrete duplicate request, run with no API key
configured. -/
theorem c9_duplicate_status_422_witness :
    ∃ exc : HTTPExc,
      (create_waiting_list_item cfgNoKey okTransport dupItem dupDb).fst = Except.error exc ∧
      exc.statusCode = 422 ∧ exc.statusCode ≠ 400 ∧
      exc.detail = pyStrHTTPExc 400 "Phone number already in waiting list" :=
  c9_duplicate_status_422 cfgNoKey okTransport dupItem dupDb rfl

/-- C10: `send_message` ignores its message_type argument — two calls
differing only in message_type return identical results (same envelope
and same transport trace, hence same payload), and the payload's
message_type field is always the literal "text". -/
theorem c10_message_type_ignored :
    (∀ (cfg : NgumzoConfig) (call : ApiCall) (phone message mt1 mt2 : String),
      send_message cfg call phone message mt1 = send_message cfg call phone message mt2) ∧
    (∀ (cfg : NgumzoConfig) (phone message : String),
      pySubscr (send_message_payload cfg phone message) "message_type"
        = Except.ok (Json.str "text")) :=
  ⟨fun _ _ _ _ _ _ => rfl, fun _ _ _ => rfl⟩

/-- C8: the template payload's parameters field is always present — the
empty list when the argument is None, and the supplied list itself when
one is given (Python `parameters or []` maps an empty supplied list to
the same empty list). -/
theorem c8_template_parameters :
    (∀ (cfg : NgumzoConfig) (phone tpl : String),
      pySubscr (send_template_payload cfg phone tpl none) "parameters"
        = Except.ok (Json.arr [])) ∧
    (∀ (cfg : NgumzoConfig) (phone tpl : String) (ps : List Json),
      pySubscr (send_template_payload cfg phone tpl (some ps)) "parameters"
        = Except.ok (Json.arr ps)) := by
  constructor
  · intro cfg phone tpl
    rfl
  · intro cfg phone tpl ps
    show Except.ok (Json.arr (pyOrEmptyList (some ps))) = Except.ok (Json.arr ps)
    cases ps <;> rfl
